import Mathlib

set_option maxHeartbeats 1000000

/-! Shallow embedding of the Allegro A1335 driver (src/A1335.h, src/A1335.cpp).

Machine integers are modelled as bit patterns on `Nat`; the `int16_t` /
`int32_t` views of the source are recovered with explicit sign extension.
The union-based `bytes_2` / `bytes_4` helpers are modelled by their byte
arrays (little-endian, as on the AVR/ARM targets of the library, which is
also the layout the accessor names `msBy`/`lsBy` presuppose: `msBy(0)`
returns `bytes[N-1]`).  The two-wire bus (the Arduino `Wire` object) is
modelled by an oracle giving the transport's responses, and every bus
primitive and delay is logged in an event trace. -/

/-- Sign extension: the `int16_t` value denoted by a 16-bit pattern. -/
def sext16 (n : Nat) : Int := if n < 32768 then (n : Int) else (n : Int) - 65536

/-- Sign extension: the `int32_t` value denoted by a 32-bit pattern. -/
def sext32 (n : Nat) : Int :=
  if n < 2147483648 then (n : Int) else (n : Int) - 4294967296

/-- `bytes_2` from A1335.h: a union of an `int16_t` and `byte bytes[2]`,
modelled by the two bytes, `bytes0` least significant (little endian). -/
structure bytes_2 where
  bytes0 : Nat
  bytes1 : Nat
deriving DecidableEq

/-- The default constructor `bytes_2()` (sets `data.integer = 0`). -/
def bytes_2.zero : bytes_2 := ⟨0, 0⟩

/-- The constructor `bytes_2(int16_t integ)`: store the two's-complement
bit pattern of the integer in the byte array. -/
def bytes_2.ofInt (i : Int) : bytes_2 :=
  ⟨(i % 65536).toNat % 256, (i % 65536).toNat / 256⟩

/-- The 16-bit pattern currently held by the union. -/
def bytes_2.pat (x : bytes_2) : Nat := x.bytes1 * 256 + x.bytes0

/-- `bytes_2::in()`: the `int16_t` view of the union. -/
def bytes_2.in' (x : bytes_2) : Int := sext16 x.pat

/-- Index clamping in `bytes_2::lsBy` / `bytes_2::msBy`: `n > 1` is clamped
to 1, `n < 0` to 0 (dead for the unsigned `byte` argument, kept verbatim). -/
def clampIdx2 (n : Nat) : Nat := if n > 1 then 1 else if n < 0 then 0 else n

/-- `data.bytes[i]` for `bytes_2`. -/
def bytes_2.byteAt (x : bytes_2) (i : Nat) : Nat :=
  if i = 0 then x.bytes0 else x.bytes1

/-- Assignment through the reference `data.bytes[i] = b` (byte truncation). -/
def bytes_2.byteSet (x : bytes_2) (i b : Nat) : bytes_2 :=
  if i = 0 then { x with bytes0 := b % 256 } else { x with bytes1 := b % 256 }

/-- `bytes_2::lsBy(n)` as a read: `data.bytes[clamp n]`. -/
def bytes_2.lsBy (x : bytes_2) (n : Nat) : Nat := x.byteAt (clampIdx2 n)

/-- `bytes_2::msBy(n)` as a read: `data.bytes[1 - clamp n]`. -/
def bytes_2.msBy (x : bytes_2) (n : Nat) : Nat := x.byteAt (1 - clampIdx2 n)

/-- `bytes_2::lsBy(n)` as a write target. -/
def bytes_2.lsBySet (x : bytes_2) (n b : Nat) : bytes_2 := x.byteSet (clampIdx2 n) b

/-- `bytes_2::msBy(n)` as a write target. -/
def bytes_2.msBySet (x : bytes_2) (n b : Nat) : bytes_2 :=
  x.byteSet (1 - clampIdx2 n) b

/-- `bytes_4` from A1335.h: a union of an `int32_t` and `byte bytes[4]`,
modelled by the four bytes, `bytes0` least significant. -/
structure bytes_4 where
  bytes0 : Nat
  bytes1 : Nat
  bytes2 : Nat
  bytes3 : Nat
deriving DecidableEq

/-- The default constructor `bytes_4()`. -/
def bytes_4.zero : bytes_4 := ⟨0, 0, 0, 0⟩

/-- The constructor `bytes_4(int32_t integ)`. -/
def bytes_4.ofInt (i : Int) : bytes_4 :=
  ⟨(i % 4294967296).toNat % 256,
   (i % 4294967296).toNat / 256 % 256,
   (i % 4294967296).toNat / 65536 % 256,
   (i % 4294967296).toNat / 16777216⟩

/-- The 32-bit pattern currently held by the union. -/
def bytes_4.pat (x : bytes_4) : Nat :=
  x.bytes3 * 16777216 + x.bytes2 * 65536 + x.bytes1 * 256 + x.bytes0

/-- `bytes_4::in()`: the `int32_t` view of the union. -/
def bytes_4.in' (x : bytes_4) : Int := sext32 x.pat

/-- Index clamping in `bytes_4::lsBy` / `bytes_4::msBy`. -/
def clampIdx4 (n : Nat) : Nat := if n > 3 then 3 else if n < 0 then 0 else n

/-- `data.bytes[i]` for `bytes_4`. -/
def bytes_4.byteAt (x : bytes_4) (i : Nat) : Nat :=
  if i = 0 then x.bytes0 else if i = 1 then x.bytes1
  else if i = 2 then x.bytes2 else x.bytes3

/-- Assignment through the reference `data.bytes[i] = b`. -/
def bytes_4.byteSet (x : bytes_4) (i b : Nat) : bytes_4 :=
  if i = 0 then { x with bytes0 := b % 256 }
  else if i = 1 then { x with bytes1 := b % 256 }
  else if i = 2 then { x with bytes2 := b % 256 }
  else { x with bytes3 := b % 256 }

/-- `bytes_4::lsBy(n)` as a read. -/
def bytes_4.lsBy (x : bytes_4) (n : Nat) : Nat := x.byteAt (clampIdx4 n)

/-- `bytes_4::msBy(n)` as a read: `data.bytes[3 - clamp n]`. -/
def bytes_4.msBy (x : bytes_4) (n : Nat) : Nat := x.byteAt (3 - clampIdx4 n)

/-- `bytes_4::lsBy(n)` as a write target. -/
def bytes_4.lsBySet (x : bytes_4) (n b : Nat) : bytes_4 := x.byteSet (clampIdx4 n) b

/-- `bytes_4::msBy(n)` as a write target. -/
def bytes_4.msBySet (x : bytes_4) (n b : Nat) : bytes_4 :=
  x.byteSet (3 - clampIdx4 n) b

/-! Register addresses and constant tables from A1335.cpp. -/

def EWA : Nat := 0x02
def EWD : Nat := 0x04
def EWCS : Nat := 0x08
def ERA : Nat := 0x0A
def ERCS : Nat := 0x0C
def ERD : Nat := 0x0E
def CTRL : Nat := 0x1E
def ANG : Nat := 0x20
def STA : Nat := 0x22
def ERR : Nat := 0x24
def XERR : Nat := 0x26
def TSEN : Nat := 0x28
def FIELD : Nat := 0x2A
def ERM : Nat := 0x34
def XERM : Nat := 0x36

/-- `ORATE`: `int16_t 0xFFD0`, kept as its 16-bit pattern. -/
def ORATE : Nat := 0xFFD0

/-- `ipm[]`: idle-mode control byte and key byte. -/
def ipm : Nat × Nat := (0x80, 0x46)

/-- `rpm[]`: run-mode control byte and key byte. -/
def rpm : Nat × Nat := (0xC0, 0x46)

/-- `ang[]`: angle-register read mask (high byte, low byte). -/
def ang : Nat × Nat := (0x0F, 0xFF)

/-- `mps[]`: processor processing-status mask. -/
def mps : Nat × Nat := (0x00, 0xF0)

/-- `phase[]`: processor phase-status mask. -/
def phase : Nat × Nat := (0x00, 0x0F)

/-- `temp[]`: temperature-register read mask. -/
def temp : Nat × Nat := (0x0F, 0xFF)

/-- `field[]`: field-strength-register read mask. -/
def field : Nat × Nat := (0x0F, 0xFF)

/-! The bus transport model. -/

/-- One observable action on the `Wire` transport or the delay timer. -/
inductive Ev where
  | beginTx : Int → Ev
  | writeB : Nat → Ev
  | endTx : Nat → Ev
  | reqFrom : Int → Nat → Ev
  | readB : Nat → Ev
  | delayUs : Nat → Ev
  | delayMs : Nat → Ev
deriving DecidableEq

/-- The environment's responses: the status returned by the k-th
`endTransmission`, the byte returned by the k-th `read`, and the result of
the k-th `available` call. -/
structure Oracle where
  status : Nat → Nat
  rd : Nat → Nat
  avail : Nat → Bool

/-- The driver state (the three private members of class `A1335`) together
with the bookkeeping of the bus model: response counters and the event
trace in chronological order. -/
structure S where
  address : Int
  processorState : Nat
  outputRate : Nat
  nEnd : Nat
  nRead : Nat
  nAvail : Nat
  trace : List Ev
deriving DecidableEq

/-- The state of a freshly constructed `A1335` object (defaults in
A1335.h: `address = 0x0C`, `processorState = 4`, `outputRate = 0`). -/
def initState : S := ⟨0x0C, 4, 0, 0, 0, 0, []⟩

/-- `Wire.beginTransmission(a)`. -/
def evBegin (a : Int) (s : S) : S := { s with trace := s.trace ++ [Ev.beginTx a] }

/-- `Wire.write(b)`. -/
def evWrite (b : Nat) (s : S) : S := { s with trace := s.trace ++ [Ev.writeB b] }

/-- `Wire.endTransmission()`: returns the next status from the oracle. -/
def evEnd (o : Oracle) (s : S) : Nat × S :=
  (o.status s.nEnd,
   { s with nEnd := s.nEnd + 1, trace := s.trace ++ [Ev.endTx (o.status s.nEnd)] })

/-- `Wire.requestFrom(a, n)`. -/
def evReq (a : Int) (n : Nat) (s : S) : S :=
  { s with trace := s.trace ++ [Ev.reqFrom a n] }

/-- `Wire.available()`: answered by the oracle, not logged. -/
def evAvail (o : Oracle) (s : S) : Bool × S :=
  (o.avail s.nAvail, { s with nAvail := s.nAvail + 1 })

/-- `Wire.read()`: the next byte from the oracle. -/
def evRead (o : Oracle) (s : S) : Nat × S :=
  (o.rd s.nRead % 256,
   { s with nRead := s.nRead + 1, trace := s.trace ++ [Ev.readB (o.rd s.nRead % 256)] })

/-- `delayMicroseconds(n)`. -/
def evDelayUs (n : Nat) (s : S) : S := { s with trace := s.trace ++ [Ev.delayUs n] }

/-- `delay(n)` (milliseconds). -/
def evDelayMs (n : Nat) (s : S) : S := { s with trace := s.trace ++ [Ev.delayMs n] }

/-! The driver operations (A1335.cpp).  Register arguments are the bit
patterns of the C++ `byte` / `int16_t` register addresses. -/

/-- `A1335::getAddress()`. -/
def getAddress (s : S) : Int × S := (s.address, s)

/-- `A1335::getProcessorState()`. -/
def getProcessorState (s : S) : Nat × S := (s.processorState, s)

/-- `A1335::getOutputRate()`. -/
def getOutputRate (s : S) : Nat × S := (s.outputRate, s)

/-- `A1335::normalRead(reg)`: select the register, request two bytes and
read them most-significant-first into a `bytes_2` (a byte is only read when
`Wire.available()` reports one); returns the `int16_t` view. -/
def normalRead (o : Oracle) (reg : Nat) (s : S) : Int × S :=
  let s1 := evWrite reg (evBegin s.address s)
  let p := evEnd o s1
  let s2 := evReq s.address 2 p.2
  let a0 := evAvail o s2
  let q0 :=
    if a0.1 then
      let r := evRead o a0.2
      (bytes_2.msBySet bytes_2.zero 0 r.1, r.2)
    else (bytes_2.zero, a0.2)
  let a1 := evAvail o q0.2
  let q1 :=
    if a1.1 then
      let r := evRead o a1.2
      (bytes_2.msBySet q0.1 1 r.1, r.2)
    else (q0.1, a1.2)
  (q1.1.in', q1.2)

/-- `A1335::normalWrite(reg, data)`: select the register and write the two
data bytes most-significant-first; returns the transaction status. -/
def normalWrite (o : Oracle) (reg : Nat) (data : Int) (s : S) : Nat × S :=
  let db := bytes_2.ofInt data
  let s1 := evWrite reg (evBegin s.address s)
  let s2 := evWrite (db.msBy 1) (evWrite (db.msBy 0) s1)
  evEnd o s2

/-- `A1335::extendedRead(reg)`: stage the extended address through `ERA`,
confirm with `0x80`, wait 10 microseconds, request five bytes, consume the
status byte, then read four data bytes most-significant-first (each only
when available); returns the `int32_t` view. -/
def extendedRead (o : Oracle) (reg : Nat) (s : S) : Int × S :=
  let s1 := evWrite 0x80 (evWrite (reg % 256)
              (evWrite (reg / 256 % 256) (evWrite ERA (evBegin s.address s))))
  let p := evEnd o s1
  let s2 := evReq s.address 5 (evDelayUs 10 p.2)
  let rstate := evRead o s2
  let a0 := evAvail o rstate.2
  let q0 :=
    if a0.1 then
      let r := evRead o a0.2
      (bytes_4.msBySet bytes_4.zero 0 r.1, r.2)
    else (bytes_4.zero, a0.2)
  let a1 := evAvail o q0.2
  let q1 :=
    if a1.1 then
      let r := evRead o a1.2
      (bytes_4.msBySet q0.1 1 r.1, r.2)
    else (q0.1, a1.2)
  let a2 := evAvail o q1.2
  let q2 :=
    if a2.1 then
      let r := evRead o a2.2
      (bytes_4.msBySet q1.1 2 r.1, r.2)
    else (q1.1, a2.2)
  let a3 := evAvail o q2.2
  let q3 :=
    if a3.1 then
      let r := evRead o a3.2
      (bytes_4.msBySet q2.1 3 r.1, r.2)
    else (q2.1, a3.2)
  (q3.1.in', q3.2)

/-- `A1335::extendedWrite(reg, data)`: stage address and four data bytes
(most-significant-first) through `EWA`, confirm with `0x80`, wait 10
microseconds, then read back one status byte, which is returned. -/
def extendedWrite (o : Oracle) (reg : Nat) (data : Int) (s : S) : Nat × S :=
  let db := bytes_4.ofInt data
  let s1 := evWrite (reg % 256) (evWrite (reg / 256 % 256)
              (evWrite EWA (evBegin s.address s)))
  let s2 := evWrite (db.msBy 3) (evWrite (db.msBy 2)
              (evWrite (db.msBy 1) (evWrite (db.msBy 0) s1)))
  let p := evEnd o (evWrite 0x80 s2)
  let s3 := evReq s.address 1 (evDelayUs 10 p.2)
  evRead o s3

/-- The probe transaction at the top of `A1335::start`: an empty
transaction against the currently cached address. -/
def startProbe (o : Oracle) (s : S) : Nat × S := evEnd o (evBegin s.address s)

/-- The state after a successful probe: the `address_` argument is
assigned to the cached address. -/
def afterProbe (o : Oracle) (a : Int) (s : S) : S :=
  { (startProbe o s).2 with address := a }

/-- The status-register read of `A1335::start`. -/
def startSta (o : Oracle) (a : Int) (s : S) : Int × S :=
  normalRead o STA (afterProbe o a s)

/-- The output-rate register read of `A1335::start`. -/
def startOrate (o : Oracle) (a : Int) (s : S) : Int × S :=
  extendedRead o ORATE (startSta o a s).2

/-- The `switch (processing_status)` of `A1335::start`, acting on the
second status byte `b`: cases `0b0000`, `0b0001` (split on the phase),
`0b1110`; any other status leaves the state `old` unchanged. -/
def deriveState (b old : Nat) : Nat :=
  let processing_status := (b &&& mps.2) >>> 4
  let processing_phase := (b &&& phase.2) >>> 0
  if processing_status = 0 then 0
  else if processing_status = 1 then (if processing_phase = 0 then 1 else 2)
  else if processing_status = 14 then 3
  else old

/-- `A1335::start(address_)`: probe the cached address; on transport
failure set `processorState = 4` and return the error.  Otherwise adopt
`address_`, read `STA` and `ORATE`, derive the processor state from the
second status byte, cache the output rate from `orate.msBy(3)`, wait 1 ms
and return the (zero) status. -/
def start (o : Oracle) (a : Int) (s : S) : Nat × S :=
  let p := startProbe o s
  if p.1 ≠ 0 then (p.1, { p.2 with processorState := 4 })
  else
    let q := startSta o a s
    let r := startOrate o a s
    let stByte := (bytes_2.ofInt q.1).msBy 1
    let s5 := { r.2 with processorState := deriveState stByte r.2.processorState,
                         outputRate := (bytes_4.ofInt r.1).msBy 3 }
    (p.1, evDelayMs 1 s5)

/-- The parity fold of `A1335::readAngleRaw` at pattern level: one step
`parityCheck ^= parityCheck >> k` on an `int16_t`, including the integer
promotion (sign extension to 32 bits) and the truncation on assignment. -/
def pstep (x k : Nat) : Nat :=
  let ext := if x < 32768 then x else x + 0xFFFF0000
  (ext ^^^ (ext >>> k)) &&& 0xFFFF

/-- The full parity computation of `A1335::readAngleRaw`: fold by 8, 4, 2,
1 and keep bit 0; equals 1 exactly when the 16-bit pattern has odd parity. -/
def parityOf (x : Nat) : Nat := pstep (pstep (pstep (pstep x 8) 4) 2) 1 &&& 1

/-- The XOR of all 16 bits of a pattern (the spec's formulation). -/
def xorBits16 (x : Nat) : Nat :=
  ((x >>> 0) &&& 1) ^^^ ((x >>> 1) &&& 1) ^^^ ((x >>> 2) &&& 1) ^^^
  ((x >>> 3) &&& 1) ^^^ ((x >>> 4) &&& 1) ^^^ ((x >>> 5) &&& 1) ^^^
  ((x >>> 6) &&& 1) ^^^ ((x >>> 7) &&& 1) ^^^ ((x >>> 8) &&& 1) ^^^
  ((x >>> 9) &&& 1) ^^^ ((x >>> 10) &&& 1) ^^^ ((x >>> 11) &&& 1) ^^^
  ((x >>> 12) &&& 1) ^^^ ((x >>> 13) &&& 1) ^^^ ((x >>> 14) &&& 1) ^^^
  ((x >>> 15) &&& 1)

/-- The pure decode step of `A1335::readAngleRaw` on the received register:
on even parity return 0, otherwise mute the top nibble of the high byte
(`msBy(0) &= ang[0]`) and return the register value (as `uint16_t`, i.e.
the pattern). -/
def decodeAngleReg (r : bytes_2) : Nat :=
  if parityOf r.pat = 0 then 0
  else (r.msBySet 0 (r.msBy 0 &&& ang.1)).pat

/-- The validity signal of the angle decode (the parity test that guards
the normal return path of `A1335::readAngleRaw`). -/
def decodeAngleValid (r : bytes_2) : Bool := parityOf r.pat != 0

/-- `A1335::readAngleRaw()`: read `ANG` and decode it. -/
def readAngleRaw (o : Oracle) (s : S) : Nat × S :=
  let p := normalRead o ANG s
  (decodeAngleReg (bytes_2.ofInt p.1), p.2)

/-- `A1335::readAngle()`: degrees = raw * 360 / 4096.  The C++ `double`
arithmetic is modelled exactly on the rationals. -/
def readAngle (o : Oracle) (s : S) : ℚ × S :=
  let p := readAngleRaw o s
  ((p.1 : ℚ) * 360 / 4096, p.2)

/-- `A1335::readTempRaw()`: read `TSEN` and mute the top nibble of the
high byte (`msBy(0) &= temp[0]`). -/
def readTempRaw (o : Oracle) (s : S) : Nat × S :=
  let p := normalRead o TSEN s
  let r := bytes_2.ofInt p.1
  ((r.msBySet 0 (r.msBy 0 &&& temp.1)).pat, p.2)

/-- `A1335::readTemp()`: Kelvin = raw / 8, modelled on the rationals. -/
def readTemp (o : Oracle) (s : S) : ℚ × S :=
  let p := readTempRaw o s
  ((p.1 : ℚ) / 8, p.2)

/-- `A1335::readFieldRaw()`: read `FIELD` and mute the top nibble of the
high byte (`msBy(0) &= field[0]`). -/
def readFieldRaw (o : Oracle) (s : S) : Nat × S :=
  let p := normalRead o FIELD s
  let r := bytes_2.ofInt p.1
  ((r.msBySet 0 (r.msBy 0 &&& field.1)).pat, p.2)

/-- `A1335::readField()`: Tesla = raw / 10000, modelled on the rationals. -/
def readField (o : Oracle) (s : S) : ℚ × S :=
  let p := readFieldRaw o s
  ((p.1 : ℚ) / 10000, p.2)

/-- `A1335::readOutputRate()`: read `ORATE` and return `oRate.msBy(3)`. -/
def readOutputRate (o : Oracle) (s : S) : Nat × S :=
  let p := extendedRead o ORATE s
  ((bytes_4.ofInt p.1).msBy 3, p.2)

/-- The clamping at the top of `A1335::setOutputRate`, verbatim: the
`rate < 0` branch is dead for the unsigned `byte` argument. -/
def clampRate (rate : Nat) : Nat :=
  if rate < 0 then 0 else if rate ≥ 8 then 7 else rate

/-- The C++ implicit conversion of an `int` argument to `byte`. -/
def byteOfInt (i : Int) : Nat := (i % 256).toNat

/-- The `bytes_4` staged for the extended write in `A1335::setOutputRate`
(`oRate.msBy(3) = rate` on a default-constructed value). -/
def orateReg (r : Nat) : bytes_4 := bytes_4.msBySet bytes_4.zero 3 r

/-- `A1335::setOutputRate(rate)`: clamp the rate, build the idle-mode and
run-mode control words (`msBy(i) = ipm[i]` / `rpm[i]`), then: write `CTRL`
with the idle pair, wait 150 us, extended-write the rate to `ORATE`, wait
50 us, write `CTRL` with the run pair, wait 150 us.  The C++ function
declares a `byte` return type but returns nothing, so the model returns
only the state. -/
def setOutputRate (o : Oracle) (rate : Nat) (s : S) : S :=
  let r := clampRate rate
  let idle_mode := (bytes_2.msBySet (bytes_2.msBySet bytes_2.zero 0 ipm.1) 1 ipm.2)
  let run_mode := (bytes_2.msBySet (bytes_2.msBySet bytes_2.zero 0 rpm.1) 1 rpm.2)
  let p1 := normalWrite o CTRL idle_mode.in' s
  let s2 := evDelayUs 150 p1.2
  let p3 := extendedWrite o ORATE (orateReg r).in' s2
  let s4 := evDelayUs 50 p3.2
  let p5 := normalWrite o CTRL run_mode.in' s4
  evDelayUs 150 p5.2

/-- A transport operation proper: a completed transaction or a read
request (the granularity at which the bus is seized). -/
def isTransport : Ev → Bool
  | Ev.endTx _ => true
  | Ev.reqFrom _ _ => true
  | _ => false

/-- Number of transport operations in a trace. -/
def countTransport (l : List Ev) : Nat := (l.filter isTransport).length

/-- Projection of the cached driver members out of the model state. -/
def drvOf (s : S) : Int × Nat × Nat := (s.address, s.processorState, s.outputRate)

/-- A bus that acknowledges everything and answers every read with 0. -/
def busAllZero : Oracle := ⟨fun _ => 0, fun _ => 0, fun _ => true⟩

/-- A bus that acknowledges everything and answers the k-th read with k
(so a normal read yields the byte pair [0x00, 0x01]). -/
def busSeq : Oracle := ⟨fun _ => 0, fun k => k, fun _ => true⟩

/-- A bus whose every transaction fails with status 2. -/
def busFail : Oracle := ⟨fun _ => 2, fun _ => 0, fun _ => true⟩

/-- A bus on which, during `start`, the extended ORATE read returns the
data bytes [5, 0, 0, 3] (most-significant first): reads 0-1 are the status
register, read 2 the extended status byte, reads 3-6 the data bytes. -/
def busOrate53 : Oracle :=
  ⟨fun _ => 0, fun k => if k = 3 then 5 else if k = 6 then 3 else 0, fun _ => true⟩

/-- A bus on which a normal read yields the byte pair [0xA0, 0x00]. -/
def busAng0xA0 : Oracle :=
  ⟨fun _ => 0, fun k => if k = 0 then 0xA0 else 0, fun _ => true⟩

/-- A bus on which, during `start`, the status register reads back as the
byte pair [0x00, 0x10] (processing status 1, phase 0). -/
def busSta16 : Oracle :=
  ⟨fun _ => 0, fun k => if k = 1 then 0x10 else 0, fun _ => true⟩

/-! Bit-level helper lemmas. -/

lemma bitAnd_one (y : Nat) : y &&& 1 = cond (y.testBit 0) 1 0 := by
  rw [Nat.and_one_is_mod, Nat.testBit_zero]
  rcases Nat.mod_two_eq_zero_or_one y with h | h <;> simp [h]

lemma promote16_testBit (x : Nat) (hx : x < 65536) (i : Nat) (hi : i < 16) :
    (if x < 32768 then x else x + 0xFFFF0000).testBit i = x.testBit i := by
  split
  · rfl
  · have h1 : (x + 0xFFFF0000) % 2 ^ 16 = x := by omega
    have h2 := Nat.testBit_mod_two_pow (x + 0xFFFF0000) 16 i
    rw [h1] at h2
    simp [hi] at h2
    exact h2.symm

lemma pstep_lt (x k : Nat) : pstep x k < 65536 := by
  have h : pstep x k ≤ 65535 := by
    unfold pstep
    exact Nat.and_le_right
  omega

lemma pstep_testBit (x k i : Nat) (hx : x < 65536) (h1 : i + k < 16) :
    (pstep x k).testBit i = ((x.testBit i) ^^ (x.testBit (i + k))) := by
  have hi : i < 16 := by omega
  unfold pstep
  rw [show (0xFFFF : Nat) = 2 ^ 16 - 1 by norm_num]
  simp only [Nat.testBit_and, Nat.testBit_xor, Nat.testBit_shiftRight,
    Nat.testBit_two_pow_sub_one]
  rw [promote16_testBit x hx i hi, promote16_testBit x hx (k + i) (by omega)]
  simp [hi, Nat.add_comm k i]

lemma shift_and_one (x i : Nat) : (x >>> i) &&& 1 = cond (x.testBit i) 1 0 := by
  rw [bitAnd_one]
  congr 1

lemma cond_xor (a b : Bool) : ((cond a 1 0 : Nat) ^^^ cond b 1 0) = cond (a ^^ b) 1 0 := by
  cases a <;> cases b <;> rfl

lemma parityOf_eq_xorBits16 (x : Nat) (hx : x < 65536) : parityOf x = xorBits16 x := by
  have e4 := pstep_testBit (pstep (pstep (pstep x 8) 4) 2) 1 0 (pstep_lt _ _) (by omega)
  have e3 : ∀ i, i + 2 < 16 → (pstep (pstep (pstep x 8) 4) 2).testBit i =
      (((pstep (pstep x 8) 4).testBit i) ^^ ((pstep (pstep x 8) 4).testBit (i + 2))) :=
    fun i h => pstep_testBit _ 2 i (pstep_lt _ _) h
  have e2 : ∀ i, i + 4 < 16 → (pstep (pstep x 8) 4).testBit i =
      (((pstep x 8).testBit i) ^^ ((pstep x 8).testBit (i + 4))) :=
    fun i h => pstep_testBit _ 4 i (pstep_lt _ _) h
  have e1 : ∀ i, i + 8 < 16 → (pstep x 8).testBit i =
      ((x.testBit i) ^^ (x.testBit (i + 8))) :=
    fun i h => pstep_testBit x 8 i hx h
  have lhs : parityOf x = cond ((pstep (pstep (pstep (pstep x 8) 4) 2) 1).testBit 0) 1 0 := by
    unfold parityOf
    exact bitAnd_one _
  rw [lhs, e4, e3 0 (by omega), e3 1 (by omega), e2 0 (by omega), e2 1 (by omega),
    e2 2 (by omega), e2 3 (by omega), e1 0 (by omega), e1 1 (by omega), e1 2 (by omega),
    e1 3 (by omega), e1 4 (by omega), e1 5 (by omega), e1 6 (by omega), e1 7 (by omega)]
  unfold xorBits16
  simp only [shift_and_one, cond_xor]
  congr 1
  simp [Bool.xor_assoc, Bool.xor_comm, Bool.xor_left_comm]

lemma pat_mask (b1 b0 : Nat) (h0 : b0 < 256) :
    (b1 &&& 15) * 256 + b0 = (b1 * 256 + b0) &&& 4095 := by
  rw [show (4095 : Nat) = 2 ^ 12 - 1 by norm_num, Nat.and_pow_two_sub_one_eq_mod,
    show (15 : Nat) = 2 ^ 4 - 1 by norm_num, Nat.and_pow_two_sub_one_eq_mod]
  omega

/-! Structural lemmas about the embedded operations. -/

lemma ofInt2_bytes0_lt (i : Int) : (bytes_2.ofInt i).bytes0 < 256 := by
  show (i % 65536).toNat % 256 < 256
  omega

lemma ofInt2_bytes1_lt (i : Int) : (bytes_2.ofInt i).bytes1 < 256 := by
  show (i % 65536).toNat / 256 < 256
  omega

lemma pat_ofInt2_lt (i : Int) : (bytes_2.ofInt i).pat < 65536 := by
  have h0 := ofInt2_bytes0_lt i
  have h1 := ofInt2_bytes1_lt i
  show (bytes_2.ofInt i).bytes1 * 256 + (bytes_2.ofInt i).bytes0 < 65536
  omega

lemma decodeAngleReg_eq (r : bytes_2) (h0 : r.bytes0 < 256) :
    decodeAngleReg r = if parityOf r.pat = 0 then 0 else r.pat &&& 4095 := by
  unfold decodeAngleReg
  split_ifs
  · rfl
  · have hle : r.bytes1 &&& 15 < 256 := lt_of_le_of_lt Nat.and_le_right (by norm_num)
    simp [bytes_2.msBySet, bytes_2.msBy, bytes_2.byteSet, bytes_2.byteAt, clampIdx2,
      bytes_2.pat, ang, Nat.mod_eq_of_lt hle]
    exact pat_mask r.bytes1 r.bytes0 h0

lemma clampRate_lt8 (rate : Nat) : clampRate rate < 8 := by
  unfold clampRate
  split_ifs <;> omega

lemma clampRate_of_ge (rate : Nat) (h : 8 ≤ rate) : clampRate rate = 7 := by
  unfold clampRate
  split_ifs <;> omega

lemma orate_ofInt (r : Nat) (h : r < 8) :
    bytes_4.ofInt ((orateReg r).in') = ⟨r, 0, 0, 0⟩ := by
  have hb : ∀ q, q < 8 → bytes_4.ofInt ((orateReg q).in') = ⟨q, 0, 0, 0⟩ := by decide
  exact hb r h

lemma idleReg_ofInt :
    bytes_2.ofInt ((bytes_2.msBySet (bytes_2.msBySet bytes_2.zero 0 ipm.1) 1 ipm.2).in') =
      ⟨0x46, 0x80⟩ := by decide

lemma runReg_ofInt :
    bytes_2.ofInt ((bytes_2.msBySet (bytes_2.msBySet bytes_2.zero 0 rpm.1) 1 rpm.2).in') =
      ⟨0x46, 0xC0⟩ := by decide

lemma normalRead_drv (o : Oracle) (reg : Nat) (s : S) :
    drvOf (normalRead o reg s).2 = drvOf s := by
  unfold normalRead evBegin evWrite evEnd evReq evAvail evRead drvOf
  dsimp only
  split_ifs <;> rfl

lemma normalWrite_drv (o : Oracle) (reg : Nat) (data : Int) (s : S) :
    drvOf (normalWrite o reg data s).2 = drvOf s := by
  unfold normalWrite evBegin evWrite evEnd drvOf
  rfl

lemma extendedRead_drv (o : Oracle) (reg : Nat) (s : S) :
    drvOf (extendedRead o reg s).2 = drvOf s := by
  unfold extendedRead evBegin evWrite evEnd evReq evAvail evRead evDelayUs drvOf
  dsimp only
  split_ifs <;> rfl

lemma extendedWrite_drv (o : Oracle) (reg : Nat) (data : Int) (s : S) :
    drvOf (extendedWrite o reg data s).2 = drvOf s := by
  unfold extendedWrite evBegin evWrite evEnd evReq evRead evDelayUs drvOf
  rfl

lemma afterProbe_drv (o : Oracle) (a : Int) (s : S) :
    drvOf (afterProbe o a s) = (a, s.processorState, s.outputRate) := rfl

lemma startOrate_drv (o : Oracle) (a : Int) (s : S) :
    drvOf (startOrate o a s).2 = (a, s.processorState, s.outputRate) := by
  unfold startOrate startSta
  rw [extendedRead_drv, normalRead_drv, afterProbe_drv]

lemma startOrate_ps (o : Oracle) (a : Int) (s : S) :
    (startOrate o a s).2.processorState = s.processorState := by
  have h := startOrate_drv o a s
  simp [drvOf, Prod.ext_iff] at h
  exact h.2.1

lemma startOrate_addr (o : Oracle) (a : Int) (s : S) :
    (startOrate o a s).2.address = a := by
  have h := startOrate_drv o a s
  simp [drvOf, Prod.ext_iff] at h
  exact h.1

lemma start_fail (o : Oracle) (a : Int) (s : S) (h : o.status s.nEnd ≠ 0) :
    start o a s = (o.status s.nEnd,
      { s with processorState := 4, nEnd := s.nEnd + 1,
               trace := s.trace ++ [Ev.beginTx s.address, Ev.endTx (o.status s.nEnd)] }) := by
  unfold start startProbe evBegin evEnd
  simp [h, List.append_assoc]

lemma start_succ (o : Oracle) (a : Int) (s : S) (h : o.status s.nEnd = 0) :
    start o a s = (0, evDelayMs 1
      { (startOrate o a s).2 with
        processorState := deriveState ((bytes_2.ofInt (startSta o a s).1).msBy 1)
          (startOrate o a s).2.processorState,
        outputRate := (bytes_4.ofInt (startOrate o a s).1).msBy 3 }) := by
  unfold start
  have hp : (startProbe o s).1 = o.status s.nEnd := rfl
  simp [hp, h]

lemma normalRead_traceExt (o : Oracle) (reg : Nat) (s : S) :
    ∃ d, (normalRead o reg s).2.trace = s.trace ++ d := by
  unfold normalRead evBegin evWrite evEnd evReq evAvail evRead
  dsimp only
  split_ifs <;> simp

lemma extendedRead_traceExt (o : Oracle) (reg : Nat) (s : S) :
    ∃ d, (extendedRead o reg s).2.trace = s.trace ++ d := by
  unfold extendedRead evBegin evWrite evEnd evReq evAvail evRead evDelayUs
  dsimp only
  split_ifs <;> simp

lemma afterProbe_trace (o : Oracle) (a : Int) (s : S) :
    (afterProbe o a s).trace =
      s.trace ++ [Ev.beginTx s.address, Ev.endTx (o.status s.nEnd)] := by
  simp [afterProbe, startProbe, evBegin, evEnd]

lemma setOutputRate_eq (o : Oracle) (rate : Nat) (s : S) :
    setOutputRate o rate s =
      { s with nEnd := s.nEnd + 3, nRead := s.nRead + 1,
               trace := s.trace ++ [Ev.beginTx s.address, Ev.writeB CTRL, Ev.writeB 0x80,
                 Ev.writeB 0x46, Ev.endTx (o.status s.nEnd), Ev.delayUs 150,
                 Ev.beginTx s.address, Ev.writeB EWA, Ev.writeB 0xFF, Ev.writeB 0xD0,
                 Ev.writeB 0x00, Ev.writeB 0x00, Ev.writeB 0x00, Ev.writeB (clampRate rate),
                 Ev.writeB 0x80, Ev.endTx (o.status (s.nEnd + 1)), Ev.delayUs 10,
                 Ev.reqFrom s.address 1, Ev.readB (o.rd s.nRead % 256), Ev.delayUs 50,
                 Ev.beginTx s.address, Ev.writeB CTRL, Ev.writeB 0xC0, Ev.writeB 0x46,
                 Ev.endTx (o.status (s.nEnd + 2)), Ev.delayUs 150] } := by
  simp [setOutputRate, normalWrite, extendedWrite, evBegin, evWrite, evEnd, evReq, evRead,
    evDelayUs, idleReg_ofInt, runReg_ofInt, orate_ofInt (clampRate rate) (clampRate_lt8 rate),
    bytes_2.msBy, bytes_2.byteAt, clampIdx2, bytes_4.msBy, bytes_4.byteAt, clampIdx4,
    ORATE, EWA, CTRL]

lemma setOutputRate_drv (o : Oracle) (rate : Nat) (s : S) :
    drvOf (setOutputRate o rate s) = drvOf s := by
  rw [setOutputRate_eq]
  rfl

lemma readAngleRaw_drv (o : Oracle) (s : S) :
    drvOf (readAngleRaw o s).2 = drvOf s := by
  unfold readAngleRaw
  exact normalRead_drv o ANG s

lemma readAngle_drv (o : Oracle) (s : S) :
    drvOf (readAngle o s).2 = drvOf s := by
  unfold readAngle
  exact readAngleRaw_drv o s

lemma readTempRaw_drv (o : Oracle) (s : S) :
    drvOf (readTempRaw o s).2 = drvOf s := by
  unfold readTempRaw
  exact normalRead_drv o TSEN s

lemma readTemp_drv (o : Oracle) (s : S) :
    drvOf (readTemp o s).2 = drvOf s := by
  unfold readTemp
  exact readTempRaw_drv o s

lemma readFieldRaw_drv (o : Oracle) (s : S) :
    drvOf (readFieldRaw o s).2 = drvOf s := by
  unfold readFieldRaw
  exact normalRead_drv o FIELD s

lemma readField_drv (o : Oracle) (s : S) :
    drvOf (readField o s).2 = drvOf s := by
  unfold readField
  exact readFieldRaw_drv o s

lemma readOutputRate_drv (o : Oracle) (s : S) :
    drvOf (readOutputRate o s).2 = drvOf s := by
  unfold readOutputRate
  exact extendedRead_drv o ORATE s

lemma deriveState_cases (b old : Nat) :
    ((b &&& 0xF0) >>> 4 = 0 → deriveState b old = 0) ∧
    ((b &&& 0xF0) >>> 4 = 1 → b &&& 0x0F = 0 → deriveState b old = 1) ∧
    ((b &&& 0xF0) >>> 4 = 1 → b &&& 0x0F ≠ 0 → deriveState b old = 2) ∧
    ((b &&& 0xF0) >>> 4 = 14 → deriveState b old = 3) ∧
    ((b &&& 0xF0) >>> 4 ≠ 0 → (b &&& 0xF0) >>> 4 ≠ 1 → (b &&& 0xF0) >>> 4 ≠ 14 →
      deriveState b old = old) := by
  unfold deriveState
  simp only [mps, phase, Nat.shiftRight_zero]
  split_ifs <;> simp_all

/-! Claim theorems. -/

/-- Claim C1: for the 16-bit angle-register value read by `readAngleRaw`,
odd overall parity (XOR of all 16 bits = 1) makes the function return the
value with the top 4 bits of the most-significant byte masked off (the
12-bit angle code) and makes the decode valid; even parity (XOR = 0) makes
it return 0 with the decode not valid. -/
theorem claim1_readAngleRaw_parity (o : Oracle) (s : S) (raw : Nat)
    (hraw : raw = (bytes_2.ofInt (normalRead o ANG s).1).pat) :
    (xorBits16 raw = 1 → (readAngleRaw o s).1 = raw &&& 0x0FFF ∧
      decodeAngleValid (bytes_2.ofInt (normalRead o ANG s).1) = true) ∧
    (xorBits16 raw = 0 → (readAngleRaw o s).1 = 0 ∧
      decodeAngleValid (bytes_2.ofInt (normalRead o ANG s).1) = false) := by
  subst hraw
  have h1 : (readAngleRaw o s).1 =
      decodeAngleReg (bytes_2.ofInt (normalRead o ANG s).1) := rfl
  have hpar := parityOf_eq_xorBits16 (bytes_2.ofInt (normalRead o ANG s).1).pat
    (pat_ofInt2_lt (normalRead o ANG s).1)
  have hd := decodeAngleReg_eq (bytes_2.ofInt (normalRead o ANG s).1)
    (ofInt2_bytes0_lt (normalRead o ANG s).1)
  constructor
  · intro hodd
    constructor
    · rw [h1, hd, hpar, hodd]
      norm_num
    · unfold decodeAngleValid
      rw [hpar, hodd]
      rfl
  · intro heven
    constructor
    · rw [h1, hd, hpar, heven]
      norm_num
    · unfold decodeAngleValid
      rw [hpar, heven]
      rfl

/-- Witness for C1: on a bus answering the angle read with bytes
[0x00, 0x01], the register pattern 0x0001 has odd parity and the raw angle
comes back masked. -/
theorem claim1_witness :
    xorBits16 (bytes_2.ofInt (normalRead busSeq ANG initState).1).pat = 1 ∧
    (readAngleRaw busSeq initState).1 =
      (bytes_2.ofInt (normalRead busSeq ANG initState).1).pat &&& 0x0FFF :=
  ⟨by decide, ((claim1_readAngleRaw_parity busSeq initState _ rfl).1 (by decide)).1⟩

/-- Claim C3 counterexample: calling `setOutputRate` with `-1` (which the
`byte` parameter type converts to 255) behaves like `setOutputRate(7)`,
NOT like `setOutputRate(0)` as the claim states. -/
theorem claim3_counterexample :
    setOutputRate busAllZero (byteOfInt (-1)) initState =
      setOutputRate busAllZero 7 initState ∧
    setOutputRate busAllZero (byteOfInt (-1)) initState ≠
      setOutputRate busAllZero 0 initState := by
  decide

/-- Claim C3 (amended): `setOutputRate` clamps any rate at or above 8 down
to 7 before use (so `setOutputRate(9)` behaves identically to
`setOutputRate(7)`), and `setOutputRate(-1)` — whose argument arrives as
byte 255 — also behaves identically to `setOutputRate(7)`: the `rate < 0`
branch of the clamp is dead because the parameter is unsigned. -/
theorem claim3_clamping (o : Oracle) (s : S) :
    (∀ rate, 8 ≤ rate → setOutputRate o rate s = setOutputRate o 7 s) ∧
    setOutputRate o (byteOfInt (-1)) s = setOutputRate o 7 s := by
  have key : ∀ rate, 8 ≤ rate → setOutputRate o rate s = setOutputRate o 7 s := by
    intro rate hr
    rw [setOutputRate_eq, setOutputRate_eq, clampRate_of_ge rate hr,
      show clampRate 7 = 7 from rfl]
  exact ⟨key, by rw [show byteOfInt (-1) = 255 from rfl]; exact key 255 (by norm_num)⟩

/-- Witness for C3: `setOutputRate(9)` equals `setOutputRate(7)` on a
concrete bus and state. -/
theorem claim3_witness :
    setOutputRate busAllZero 9 initState = setOutputRate busAllZero 7 initState :=
  (claim3_clamping busAllZero initState).1 9 (by norm_num)

/-- Claim C4: if the zero-length probe at the start of `start` fails, the
driver sets `processorState` to NotFound (4), returns the transport status
immediately, issues no further transport operations (the trace gains only
the probe transaction), and leaves the cached address and output rate
unchanged. -/
theorem claim4_start_probe_failure (o : Oracle) (a : Int) (s : S)
    (h : o.status s.nEnd ≠ 0) :
    (start o a s).1 = o.status s.nEnd ∧
    (start o a s).2.processorState = 4 ∧
    (start o a s).2.address = s.address ∧
    (start o a s).2.outputRate = s.outputRate ∧
    (start o a s).2.trace =
      s.trace ++ [Ev.beginTx s.address, Ev.endTx (o.status s.nEnd)] := by
  rw [start_fail o a s h]
  exact ⟨rfl, rfl, rfl, rfl, rfl⟩

/-- Witness for C4: on a bus that fails every transaction with status 2,
`start` reports 2 and NotFound. -/
theorem claim4_witness :
    (start busFail 16 initState).1 = 2 ∧
    (start busFail 16 initState).2.processorState = 4 := by
  have h := claim4_start_probe_failure busFail 16 initState (by decide)
  exact ⟨h.1, h.2.1⟩

/-- Claim C9: round trip and byte-order coherence of the register-value
types: constructing `bytes_2`/`bytes_4` from any representable integer and
reading the integer view `in()` returns exactly that integer, and the
most-significant-first byte at index 0 is the same byte as the
least-significant-first byte at index N-1, both as a read and as a write. -/
theorem claim9_registerValue_roundTrip :
    (∀ v : Int, -32768 ≤ v → v < 32768 → (bytes_2.ofInt v).in' = v) ∧
    (∀ v : Int, -2147483648 ≤ v → v < 2147483648 → (bytes_4.ofInt v).in' = v) ∧
    (∀ x : bytes_2, x.msBy 0 = x.lsBy 1 ∧ ∀ b, x.msBySet 0 b = x.lsBySet 1 b) ∧
    (∀ x : bytes_4, x.msBy 0 = x.lsBy 3 ∧ ∀ b, x.msBySet 0 b = x.lsBySet 3 b) := by
  refine ⟨?_, ?_, fun x => ⟨rfl, fun b => rfl⟩, fun x => ⟨rfl, fun b => rfl⟩⟩
  · intro v h1 h2
    show sext16 (bytes_2.ofInt v).pat = v
    have e : (bytes_2.ofInt v).pat = (v % 65536).toNat := by
      show (v % 65536).toNat / 256 * 256 + (v % 65536).toNat % 256 = (v % 65536).toNat
      omega
    rw [e]
    unfold sext16
    split_ifs <;> omega
  · intro v h1 h2
    show sext32 (bytes_4.ofInt v).pat = v
    have e : (bytes_4.ofInt v).pat = (v % 4294967296).toNat := by
      show (v % 4294967296).toNat / 16777216 * 16777216 +
        (v % 4294967296).toNat / 65536 % 256 * 65536 +
        (v % 4294967296).toNat / 256 % 256 * 256 +
        (v % 4294967296).toNat % 256 = (v % 4294967296).toNat
      omega
    rw [e]
    unfold sext32
    split_ifs <;> omega

/-- Witness for C9: the negative value -5 survives the 2-byte round trip. -/
theorem claim9_witness : (bytes_2.ofInt (-5)).in' = -5 :=
  claim9_registerValue_roundTrip.1 (-5) (by norm_num) (by norm_num)

/-- Claim C2 counterexample: on a successful `start` where the extended
ORATE read returns the data bytes [5, 0, 0, 3] (value 0x05000003, so the
most-significant byte is 5), the cached `outputRate` is 3 — the
least-significant byte — not 5 as the claim states. -/
theorem claim2_counterexample :
    (start busOrate53 12 initState).2.outputRate = 3 ∧
    (bytes_4.ofInt (startOrate busOrate53 12 initState).1).msBy 0 = 5 ∧
    (3 : Nat) ≠ 5 := by
  decide

/-- Claim C2 (amended): the output rate is handled through the
LEAST-significant byte of the 4-byte ORATE register: `start` caches
`outputRate` from the least-significant byte of the value returned by
`extendedRead(ORATE)` (the source reads `orate.msBy(3)`, the last byte in
most-significant-first order), and `setOutputRate` passes to
`extendedWrite(ORATE)` a 4-byte value whose least-significant byte is the
clamped rate and whose other three bytes are zero, so the data bytes go out
on the wire most-significant-first as 0, 0, 0, rate. -/
theorem claim2_outputRate_lsByte (o : Oracle) (a : Int) (s : S)
    (h : o.status s.nEnd = 0) :
    (start o a s).2.outputRate = (bytes_4.ofInt (startOrate o a s).1).lsBy 0 ∧
    (∀ rate, bytes_4.ofInt ((orateReg (clampRate rate)).in') =
      ⟨clampRate rate, 0, 0, 0⟩) ∧
    (∀ rate s', ∃ pre post, (setOutputRate o rate s').trace =
      pre ++ [Ev.writeB EWA, Ev.writeB 0xFF, Ev.writeB 0xD0, Ev.writeB 0x00,
        Ev.writeB 0x00, Ev.writeB 0x00, Ev.writeB (clampRate rate)] ++ post) := by
  refine ⟨?_, fun rate => orate_ofInt _ (clampRate_lt8 rate), ?_⟩
  · rw [start_succ o a s h]
    rfl
  · intro rate s'
    refine ⟨s'.trace ++ [Ev.beginTx s'.address, Ev.writeB CTRL, Ev.writeB 0x80,
      Ev.writeB 0x46, Ev.endTx (o.status s'.nEnd), Ev.delayUs 150, Ev.beginTx s'.address],
      [Ev.writeB 0x80, Ev.endTx (o.status (s'.nEnd + 1)), Ev.delayUs 10,
       Ev.reqFrom s'.address 1, Ev.readB (o.rd s'.nRead % 256), Ev.delayUs 50,
       Ev.beginTx s'.address, Ev.writeB CTRL, Ev.writeB 0xC0, Ev.writeB 0x46,
       Ev.endTx (o.status (s'.nEnd + 2)), Ev.delayUs 150], ?_⟩
    rw [setOutputRate_eq]
    simp

/-- Witness for C2 (amended): on the all-zero bus the probe succeeds and
the cached output rate equals the least-significant byte of the ORATE
value. -/
theorem claim2_witness :
    (start busAllZero 12 initState).2.outputRate =
      (bytes_4.ofInt (startOrate busAllZero 12 initState).1).lsBy 0 :=
  (claim2_outputRate_lsByte busAllZero 12 initState rfl).1

/-- Claim C5: during a successful `start`, the processor state derived
from the second byte of the status register obeys exactly the table:
processing status 0b0000 gives Booting (0) for any phase; 0b0001 with
phase 0 gives IdleReady (1); 0b0001 with nonzero phase gives Running (2);
0b1110 gives SelfTest (3); any other status value leaves the stored
processor state unchanged from before the call. -/
theorem claim5_processorState_table (o : Oracle) (a : Int) (s : S)
    (h : o.status s.nEnd = 0) (b ps ph : Nat)
    (hb : b = (bytes_2.ofInt (startSta o a s).1).msBy 1)
    (hps : ps = (b &&& 0xF0) >>> 4) (hph : ph = b &&& 0x0F) :
    (ps = 0 → (start o a s).2.processorState = 0) ∧
    (ps = 1 → ph = 0 → (start o a s).2.processorState = 1) ∧
    (ps = 1 → ph ≠ 0 → (start o a s).2.processorState = 2) ∧
    (ps = 14 → (start o a s).2.processorState = 3) ∧
    (ps ≠ 0 → ps ≠ 1 → ps ≠ 14 →
      (start o a s).2.processorState = s.processorState) := by
  subst hps hph hb
  rw [start_succ o a s h]
  have e : (0, evDelayMs 1
      { (startOrate o a s).2 with
        processorState := deriveState ((bytes_2.ofInt (startSta o a s).1).msBy 1)
          (startOrate o a s).2.processorState,
        outputRate := (bytes_4.ofInt (startOrate o a s).1).msBy 3 }).2.processorState =
      deriveState ((bytes_2.ofInt (startSta o a s).1).msBy 1)
        ((startOrate o a s).2.processorState) := rfl
  rw [e, startOrate_ps o a s]
  exact deriveState_cases ((bytes_2.ofInt (startSta o a s).1).msBy 1) s.processorState

/-- Witness for C5: a bus whose status register reads [0x00, 0x10]
(processing status 1, phase 0) drives the state to IdleReady (1). -/
theorem claim5_witness : (start busSta16 12 initState).2.processorState = 1 := by
  have h := claim5_processorState_table busSta16 12 initState rfl _ _ _ rfl rfl rfl
  exact h.2.1 (by decide) (by decide)

/-- Claim C6: for every rate, `setOutputRate` produces exactly this fixed
event sequence with no retries: the idle-mode CTRL write transaction
(bytes 0x80, 0x46), a 150-microsecond wait, the extended ORATE write (its
staging transaction, internal 10-microsecond wait, and one-byte status
read-back request), a 50-microsecond wait, the run-mode CTRL write
transaction (bytes 0xC0, 0x46), and a 150-microsecond wait — four
transport operations (three transactions plus the read-back request). -/
theorem claim6_setOutputRate_sequencing (o : Oracle) (rate : Nat) (s : S) :
    (setOutputRate o rate s).trace = s.trace ++
      [Ev.beginTx s.address, Ev.writeB CTRL, Ev.writeB 0x80, Ev.writeB 0x46,
       Ev.endTx (o.status s.nEnd), Ev.delayUs 150,
       Ev.beginTx s.address, Ev.writeB EWA, Ev.writeB 0xFF, Ev.writeB 0xD0,
       Ev.writeB 0x00, Ev.writeB 0x00, Ev.writeB 0x00, Ev.writeB (clampRate rate),
       Ev.writeB 0x80, Ev.endTx (o.status (s.nEnd + 1)), Ev.delayUs 10,
       Ev.reqFrom s.address 1, Ev.readB (o.rd s.nRead % 256), Ev.delayUs 50,
       Ev.beginTx s.address, Ev.writeB CTRL, Ev.writeB 0xC0, Ev.writeB 0x46,
       Ev.endTx (o.status (s.nEnd + 2)), Ev.delayUs 150] ∧
    countTransport
      [Ev.beginTx s.address, Ev.writeB CTRL, Ev.writeB 0x80, Ev.writeB 0x46,
       Ev.endTx (o.status s.nEnd), Ev.delayUs 150,
       Ev.beginTx s.address, Ev.writeB EWA, Ev.writeB 0xFF, Ev.writeB 0xD0,
       Ev.writeB 0x00, Ev.writeB 0x00, Ev.writeB 0x00, Ev.writeB (clampRate rate),
       Ev.writeB 0x80, Ev.endTx (o.status (s.nEnd + 1)), Ev.delayUs 10,
       Ev.reqFrom s.address 1, Ev.readB (o.rd s.nRead % 256), Ev.delayUs 50,
       Ev.beginTx s.address, Ev.writeB CTRL, Ev.writeB 0xC0, Ev.writeB 0x46,
       Ev.endTx (o.status (s.nEnd + 2)), Ev.delayUs 150] = 4 := by
  constructor
  · rw [setOutputRate_eq]
  · rfl

/-- Claim C7 counterexample: `setOutputRate(5)` does NOT update the cached
`outputRate` (it stays 0), and a successful `start(0x10)` DOES mutate the
cached address (0x0C becomes 0x10) — both contradicting the claim that the
cache is mutated only as {start: processorState and outputRate;
setOutputRate: outputRate}. -/
theorem claim7_counterexample :
    (setOutputRate busAllZero 5 initState).outputRate = 0 ∧ (0 : Nat) ≠ 5 ∧
    (start busAllZero 16 initState).2.address = 16 ∧ initState.address = 12 ∧
    (12 : Int) ≠ 16 := by
  decide

/-- Claim C7 (amended): the cached driver state {address, processorState,
outputRate} starts at the NotFound defaults (0x0C, 4, 0) on construction;
`start` is the only mutator — on probe failure it sets only
`processorState := 4`, on success it sets the address to its argument, the
processor state per the status table and the output rate from the ORATE
read; `setOutputRate` leaves all three cached fields unchanged (it writes
the device but never updates the cache), and so does every other public
operation. -/
theorem claim7_cached_state_frame :
    (drvOf initState = (12, 4, 0)) ∧
    (∀ s, (getAddress s).2 = s ∧ (getProcessorState s).2 = s ∧ (getOutputRate s).2 = s) ∧
    (∀ o s, drvOf (readAngleRaw o s).2 = drvOf s) ∧
    (∀ o s, drvOf (readAngle o s).2 = drvOf s) ∧
    (∀ o s, drvOf (readTempRaw o s).2 = drvOf s) ∧
    (∀ o s, drvOf (readTemp o s).2 = drvOf s) ∧
    (∀ o s, drvOf (readFieldRaw o s).2 = drvOf s) ∧
    (∀ o s, drvOf (readField o s).2 = drvOf s) ∧
    (∀ o s, drvOf (readOutputRate o s).2 = drvOf s) ∧
    (∀ o reg s, drvOf (normalRead o reg s).2 = drvOf s) ∧
    (∀ o reg data s, drvOf (normalWrite o reg data s).2 = drvOf s) ∧
    (∀ o reg s, drvOf (extendedRead o reg s).2 = drvOf s) ∧
    (∀ o reg data s, drvOf (extendedWrite o reg data s).2 = drvOf s) ∧
    (∀ o rate s, drvOf (setOutputRate o rate s) = drvOf s) ∧
    (∀ o a s, o.status s.nEnd ≠ 0 →
      drvOf (start o a s).2 = (s.address, 4, s.outputRate)) ∧
    (∀ o a s, o.status s.nEnd = 0 →
      drvOf (start o a s).2 = (a,
        deriveState ((bytes_2.ofInt (startSta o a s).1).msBy 1) s.processorState,
        (bytes_4.ofInt (startOrate o a s).1).msBy 3)) := by
  refine ⟨rfl, fun s => ⟨rfl, rfl, rfl⟩, readAngleRaw_drv, readAngle_drv, readTempRaw_drv,
    readTemp_drv, readFieldRaw_drv, readField_drv, readOutputRate_drv, normalRead_drv,
    normalWrite_drv, extendedRead_drv, extendedWrite_drv, setOutputRate_drv, ?_, ?_⟩
  · intro o a s h
    rw [start_fail o a s h]
    rfl
  · intro o a s h
    rw [start_succ o a s h]
    have e : drvOf (0, evDelayMs 1
        { (startOrate o a s).2 with
          processorState := deriveState ((bytes_2.ofInt (startSta o a s).1).msBy 1)
            (startOrate o a s).2.processorState,
          outputRate := (bytes_4.ofInt (startOrate o a s).1).msBy 3 }).2 =
        ((startOrate o a s).2.address,
         deriveState ((bytes_2.ofInt (startSta o a s).1).msBy 1)
           ((startOrate o a s).2.processorState),
         (bytes_4.ofInt (startOrate o a s).1).msBy 3) := rfl
    rw [e, startOrate_addr o a s, startOrate_ps o a s]

/-- Witness for C7 (amended): on the failing bus, `start` leaves the
address and output rate at their defaults and parks the state at 4. -/
theorem claim7_witness : drvOf (start busFail 16 initState).2 = (12, 4, 0) := by
  have h := claim7_cached_state_frame
  have h2 := h.2.2.2.2.2.2.2.2.2.2.2.2.2.2.1 busFail 16 initState (by decide)
  exact h2

/-- Claim C8 counterexample: the angle-register byte pair [0xA0, 0x00] has
EVEN overall parity (only bits 15 and 13 are set, and the chip's parity
bit 12 is clear), so the decode is NOT valid, contradicting the claimed
`valid=true`. -/
theorem claim8_counterexample :
    decodeAngleValid (bytes_2.ofInt (normalRead busAng0xA0 ANG initState).1) = false := by
  decide

/-- Claim C8 (amended): when the angle register reads back as the byte pair
[0xA0, 0x00], the overall parity is even, so `readAngleRaw` returns the
error sentinel raw 0 with the decode not valid; the resulting angle is
0.0 degrees only via that sentinel, not as a valid reading. -/
theorem claim8_angle_0xA000 :
    (readAngleRaw busAng0xA0 initState).1 = 0 ∧
    decodeAngleValid (bytes_2.ofInt (normalRead busAng0xA0 ANG initState).1) = false ∧
    (readAngle busAng0xA0 initState).1 = 0 := by
  refine ⟨by decide, by decide, ?_⟩
  have h0 : (readAngleRaw busAng0xA0 initState).1 = 0 := by decide
  show ((readAngleRaw busAng0xA0 initState).1 : ℚ) * 360 / 4096 = 0
  rw [h0]
  norm_num

/-- Claim C10: `start` probes the previously cached device address — the
trace begins with a transaction against `s.address`, not the argument —
and assigns the argument to the cache only after the probe succeeds; a
failed `start` leaves the cached address unchanged, and the first `start`
after construction probes the default address 0x0C regardless of the
argument. -/
theorem claim10_start_probes_cached_address :
    (∀ o : Oracle, ∀ a : Int, ∀ s : S, ∃ rest,
      (start o a s).2.trace = s.trace ++ (Ev.beginTx s.address :: rest)) ∧
    (∀ o : Oracle, ∀ a : Int, ∀ s : S, o.status s.nEnd ≠ 0 →
      (start o a s).2.address = s.address) ∧
    (∀ o : Oracle, ∀ a : Int, ∀ s : S, o.status s.nEnd = 0 →
      (start o a s).2.address = a) ∧
    (∀ o : Oracle, ∀ a : Int, ∃ rest,
      (start o a initState).2.trace = Ev.beginTx 12 :: rest) := by
  have tr : ∀ o : Oracle, ∀ a : Int, ∀ s : S, ∃ rest,
      (start o a s).2.trace = s.trace ++ (Ev.beginTx s.address :: rest) := by
    intro o a s
    by_cases h : o.status s.nEnd = 0
    · rw [start_succ o a s h]
      obtain ⟨d1, h1⟩ := normalRead_traceExt o STA (afterProbe o a s)
      obtain ⟨d2, h2⟩ := extendedRead_traceExt o ORATE (startSta o a s).2
      have h1' : (startSta o a s).2.trace = (afterProbe o a s).trace ++ d1 := h1
      have h2' : (startOrate o a s).2.trace = (startSta o a s).2.trace ++ d2 := h2
      refine ⟨Ev.endTx (o.status s.nEnd) :: (d1 ++ d2 ++ [Ev.delayMs 1]), ?_⟩
      show (startOrate o a s).2.trace ++ [Ev.delayMs 1] =
        s.trace ++ (Ev.beginTx s.address ::
          (Ev.endTx (o.status s.nEnd) :: (d1 ++ d2 ++ [Ev.delayMs 1])))
      rw [h2', h1', afterProbe_trace o a s]
      simp
    · rw [start_fail o a s h]
      exact ⟨[Ev.endTx (o.status s.nEnd)], by simp⟩
  refine ⟨tr, ?_, ?_, ?_⟩
  · intro o a s h
    rw [start_fail o a s h]
  · intro o a s h
    rw [start_succ o a s h]
    show (startOrate o a s).2.address = a
    exact startOrate_addr o a s
  · intro o a
    obtain ⟨rest, hrest⟩ := tr o a initState
    exact ⟨rest, by simpa using hrest⟩

/-- Witness for C10: a failed `start(99)` still probed and kept the default
address 0x0C. -/
theorem claim10_witness : (start busFail 99 initState).2.address = 12 := by
  have h := claim10_start_probes_cached_address.2.1 busFail 99 initState (by decide)
  exact h
